import Mathlib

/-!
Verification of the graphql-server protocol layer.

The repository contains two server stacks:
* the legacy helper library (`graphql_server/__init__.py`), built on
  graphql-core 2: `run_http_query`, `encode_execution_results`,
  `format_execution_result`, `execute_graphql_request`, and the channels
  websocket consumer (`graphql_server/channels/consumer.py`);
* the newer package (`src/graphql_server/`), built on graphql-core 3:
  `runtime.py` (`execute_sync`, `_get_operation_type`,
  `_subscribe_generator`), `http/__init__.py` (`process_result`) and the
  sync/async HTTP base views.

Both are embedded below.  External collaborators (the graphql-core
engine's `parse`, `validate`, `execute`, `subscribe` entry points) are
represented by explicit outcome parameters; everything the repository
itself computes is translated directly from the source.
-/

/-- A JSON value, as carried in request/response bodies. -/
inductive JValue where
  | null : JValue
  | bool (b : Bool) : JValue
  | num (n : Int) : JValue
  | str (s : String) : JValue
  | arr (items : List JValue) : JValue
  | obj (fields : List (String × JValue)) : JValue

/-- Python truthiness of a JSON value (`None`, `False`, `0`, `""`, `[]`,
`{}` are falsy). -/
def JValue.truthy : JValue → Bool
  | .null => false
  | .bool b => b
  | .num n => n != 0
  | .str s => s != ""
  | .arr items => !items.isEmpty
  | .obj fields => !fields.isEmpty

/-- Python truthiness of an optional JSON value (`None` is falsy). -/
def optTruthy : Option JValue → Bool
  | none => false
  | some v => v.truthy

/-- Whether a JSON value is an object (Python `isinstance(x, dict)`). -/
def JValue.isObj : JValue → Bool
  | .obj _ => true
  | _ => false

/-- Python `max` over a non-empty list (the head seeds the fold); on `[]`
we return `0`, a case the embedded callers never reach. -/
def pyListMax : List Nat → Nat
  | [] => 0
  | x :: xs => xs.foldl Nat.max x

/-- Python truthiness of an optional string (`None` and `""` are
falsy). -/
def strTruthy : Option String → Bool
  | none => false
  | some s => s != ""

namespace Legacy

/-- One step of a GraphQL error path (field name or list index), as
attached to graphql-core 2 errors. -/
inductive PathSeg where
  | key (s : String) : PathSeg
  | idx (n : Nat) : PathSeg
deriving Repr, DecidableEq

/-- A graphql-core 2 error as consumed by the legacy response encoder:
its message and its optional field path. -/
structure GError where
  message : String
  path : Option (List PathSeg)
deriving Repr, DecidableEq

/-- graphql-core 2 `ExecutionResult`: data, errors, and the `invalid`
flag set by the constructor caller (parse failure, raised execution
exception). -/
structure ExecutionResult where
  data : Option JValue
  errors : Option (List GError)
  invalid : Bool

/-- Python truthiness of the `errors` attribute (`None` and `[]` are
falsy). -/
def errorsTruthy : Option (List GError) → Bool
  | some (_ :: _) => true
  | _ => false

/-- The default error formatter (graphql-core 2 `format_error`): a dict
with the message, plus the path when the error has one.  (Source
locations are not modelled; no claim depends on them.) -/
def format_error (e : GError) : JValue :=
  .obj ([("message", .str e.message)] ++
    (match e.path with
     | some p => [("path", .arr (p.map fun s =>
         match s with
         | .key k => .str k
         | .idx n => .num n))]
     | none => []))

/-- graphql-core 2 `ExecutionResult.to_dict`: `errors` when truthy, then
`data` unless the result is invalid. -/
def to_dict (r : ExecutionResult) : JValue :=
  .obj ((if errorsTruthy r.errors then
          [("errors", .arr ((r.errors.getD []).map format_error))]
         else []) ++
        (if ¬ r.invalid then [("data", r.data.getD .null)] else []))

/-- `format_execution_result` (graphql_server/__init__.py:341-360): a
missing result becomes a `null` body with status 200; otherwise the
status is 400 exactly when the result is marked invalid, and the body is
the result's dict form. -/
def format_execution_result (r : Option ExecutionResult) :
    Option JValue × Nat :=
  match r with
  | none => (none, 200)
  | some res => (some (to_dict res), if res.invalid then 400 else 200)

/-- Body of a `ServerResponse` before JSON serialisation: a single
result dict or the list of dicts of a batch. -/
inductive ResponseBody where
  | single (body : Option JValue) : ResponseBody
  | batch (bodies : List (Option JValue)) : ResponseBody

/-- `encode_execution_results` (graphql_server/__init__.py:157-186):
format every result, take the max of the per-result status codes, and
keep either the whole list (batch) or only the first body.  On an empty
list the Python unpacking `result, status_codes = zip(*results)` raises,
so the embedding returns `none` there. -/
def encode_execution_results (execution_results : List (Option ExecutionResult))
    (is_batch : Bool) : Option (ResponseBody × Nat) :=
  match execution_results with
  | [] => none
  | r :: rest =>
    let results := (r :: rest).map format_execution_result
    let status_code := pyListMax (results.map (·.2))
    some (if is_batch then .batch (results.map (·.1))
          else .single (format_execution_result r).1,
          status_code)

/-- Whether a legacy result carries at least one error whose path is
missing or empty (the condition the spec claims forces status 400). -/
def has_pathless_error (r : ExecutionResult) : Bool :=
  match r.errors with
  | some errs => errs.any fun e =>
      match e.path with
      | some (_ :: _) => false
      | _ => true
  | none => false

/-- The behaviour of a parsed graphql-core 2 backend document on this
request: what `document.get_operation_type(operation_name)` returns, and
what `document.execute(...)` does (both supplied by the external
engine). -/
structure BackendDocument where
  operationTypeFor : Option String
  executeOutcome : Except GError ExecutionResult

/-- Terminal outcome of `execute_graphql_request`: either a raised
`HttpQueryError` (status, message, optional `Allow` header) or an
`ExecutionResult`. -/
inductive RequestOutcome where
  | httpQueryError (status : Nat) (message : String) (allowHeader : Option String) :
      RequestOutcome
  | result (r : Legacy.ExecutionResult) : RequestOutcome

/-- The `document.execute` step of `execute_graphql_request`: a raised
exception becomes an invalid `ExecutionResult` carrying it. -/
def execute_document (doc : BackendDocument) : RequestOutcome :=
  match doc.executeOutcome with
  | .ok r => .result r
  | .error e => .result ⟨none, some [e], true⟩

/-- `execute_graphql_request` (graphql_server/__init__.py:262-306):
reject a missing query, turn parse failures into invalid results, and —
when only queries are allowed (GET requests) — raise a 405
`HttpQueryError` with an `Allow: POST` header naming the operation type
whenever the document's operation type is a truthy string other than
`"query"`. -/
def execute_graphql_request (query : Option String)
    (parseOutcome : Except GError BackendDocument)
    (allow_only_query : Bool) : RequestOutcome :=
  if ¬ strTruthy query then
    .httpQueryError 400 "Must provide query string." none
  else
    match parseOutcome with
    | .error e => .result ⟨none, some [e], true⟩
    | .ok doc =>
      if allow_only_query then
        match doc.operationTypeFor with
        | some ty =>
          if ty != "" ∧ ty != "query" then
            .httpQueryError 405
              ("Can only perform a " ++ ty ++ " operation from a POST request.")
              (some "POST")
          else execute_document doc
        | none => execute_document doc
      else execute_document doc

end Legacy

/-- GraphQL operation types (graphql-core 3 `OperationType`). -/
inductive OperationType where
  | query : OperationType
  | mutation : OperationType
  | subscription : OperationType
deriving Repr, DecidableEq

/-- A top-level definition of a parsed GraphQL document: an operation
definition (with its operation type and optional name) or any other
executable definition (fragments). -/
inductive DocumentDefinition where
  | operation (ty : OperationType) (name : Option String) : DocumentDefinition
  | fragmentDef : DocumentDefinition
deriving Repr, DecidableEq

/-- Exceptions that flow through `runtime.py` and the HTTP views:
plain `GraphQLError`s, the repository's `GraphQLValidationError` and
`InvalidOperationTypeError` subclasses, and non-GraphQL exceptions. -/
inductive PyError where
  | graphQLError (message : String) : PyError
  | validationError (errors : List PyError) : PyError
  | invalidOperationType (op : OperationType)
      (allowed : List OperationType) : PyError
  | otherError (message : String) : PyError

/-- Whether an exception is a `GraphQLError` (including the repository's
two subclasses). -/
def PyError.isGraphQLError : PyError → Bool
  | .otherError _ => false
  | _ => true

/-- `_coerce_error` (runtime.py:111-114): `GraphQLError`s pass through,
anything else is wrapped in a `GraphQLError` with its string message. -/
def coerce_error : PyError → PyError
  | .otherError m => .graphQLError m
  | e => e

/-- `InvalidOperationTypeError.format_operation_type`
(exceptions.py:24-29). -/
def format_operation_type : OperationType → String
  | .query => "queries"
  | .mutation => "mutations"
  | .subscription => "subscriptions"

/-- `InvalidOperationTypeError.as_http_error_reason`
(exceptions.py:31-32). -/
def as_http_error_reason (op : OperationType) (method : String) : String :=
  format_operation_type op ++ " are not allowed when using " ++ method

/-- The loop of `_get_operation_type` (runtime.py:126-149): `acc` is the
Python `operation` variable.  Without an operation name, a second
operation definition raises the plain-`Exception` multiple-operations
error; with a name, matching definitions overwrite `acc`.  After the
loop, no operation means an unknown-name `GraphQLError` (or the
no-operation `GraphQLError` when no name was given). -/
def get_operation_type_loop (operation_name : Option String) :
    List DocumentDefinition → Option OperationType → Except PyError OperationType
  | [], acc =>
    match acc with
    | some op => .ok op
    | none =>
      match operation_name with
      | some n => .error (.graphQLError
          ("Unknown operation named \"" ++ n ++ "\"."))
      | none => .error (.graphQLError "Can\x27t get GraphQL operation type")
  | d :: rest, acc =>
    match d with
    | .operation ty nm =>
      match operation_name with
      | none =>
        match acc with
        | some _ => .error (.otherError
            "Must provide operation name if query contains multiple operations.")
        | none => get_operation_type_loop operation_name rest (some ty)
      | some n =>
        if nm = some n then get_operation_type_loop operation_name rest (some ty)
        else get_operation_type_loop operation_name rest acc
    | .fragmentDef => get_operation_type_loop operation_name rest acc

/-- `_get_operation_type` (runtime.py:126-149). -/
def get_operation_type (document : List DocumentDefinition)
    (operation_name : Option String) : Except PyError OperationType :=
  get_operation_type_loop operation_name document none

/-- The operation types of a document's operation definitions, in
order. -/
def opTypes (document : List DocumentDefinition) : List OperationType :=
  document.filterMap fun d =>
    match d with
    | .operation ty _ => some ty
    | .fragmentDef => none

/-- One update of the Python `operation` variable when an operation name
is supplied: an operation definition named `n` overwrites it, everything
else keeps it. -/
def named_match_step (n : String) (acc : Option OperationType)
    (d : DocumentDefinition) : Option OperationType :=
  match d with
  | .operation ty (some m) => if m = n then some ty else acc
  | _ => acc

/-- The operation selected by scanning the document for operation
definitions named `n` (last match wins). -/
def named_operation_match (n : String) (document : List DocumentDefinition) :
    Option OperationType :=
  document.foldl (named_match_step n) none

/-- The multiple-operations error message raised by
`_get_operation_type` (a plain `Exception`, not a `GraphQLError`). -/
def multipleOperationsError : PyError :=
  .otherError "Must provide operation name if query contains multiple operations."

/-- The unknown-operation-name `GraphQLError` raised by
`_get_operation_type`. -/
def unknownOperationError (n : String) : PyError :=
  .graphQLError ("Unknown operation named \"" ++ n ++ "\".")

/-- `DEFAULT_ALLOWED_OPERATION_TYPES` (runtime.py:71-75). -/
def DEFAULT_ALLOWED_OPERATION_TYPES : List OperationType :=
  [.query, .mutation, .subscription]

/-- graphql-core 3 `ExecutionResult` as produced and consumed by
`runtime.py`: data, errors, extensions (Python `None` and the empty
list/dict are conflated, both being falsy wherever the repository tests
them). -/
structure ExecutionResult3 where
  data : Option JValue
  errors : List PyError
  extensions : List (String × JValue)

/-- `_handle_execution_result` (runtime.py:185-194): logs the errors and
returns the result unchanged. -/
def handle_execution_result (r : ExecutionResult3) : ExecutionResult3 := r

/-- `_parse_and_validate` (runtime.py:152-182), with the external
engine's contributions made explicit: `parseOutcome` is what
`graphql.parse` does on the request's query text (a document or a raised
`GraphQLError` message), and `validationErrors` is what
`graphql.validation.validate` returns on the parsed document.  A falsy
query raises; a parse error is wrapped in a `GraphQLValidationError`;
then the operation type is resolved and checked against the allow-list;
finally non-empty validation errors are raised as one
`GraphQLValidationError`. -/
def parse_and_validate (query : Option String)
    (parseOutcome : Except String (List DocumentDefinition))
    (validationErrors : List String)
    (operation_name : Option String)
    (allowed_operation_types : Option (List OperationType)) :
    Except PyError (List DocumentDefinition) :=
  let allowed := allowed_operation_types.getD DEFAULT_ALLOWED_OPERATION_TYPES
  if ¬ strTruthy query then
    .error (.graphQLError "No GraphQL query found in the request")
  else
    match parseOutcome with
    | .error msg => .error (.validationError [.graphQLError msg])
    | .ok document =>
      match get_operation_type document operation_name with
      | .error e => .error e
      | .ok opTy =>
        if ¬ allowed.contains opTy then
          .error (.invalidOperationType opTy allowed)
        else
          match validationErrors with
          | [] => .ok document
          | errs => .error (.validationError (errs.map PyError.graphQLError))

/-- What the external engine's synchronous execute entry point
(`graphql.execution.execute_sync`) does on this request: a completed
result, an unexpected awaitable, or a raised exception. -/
inductive SyncEngineResult where
  | completed (r : ExecutionResult3) : SyncEngineResult
  | awaitable : SyncEngineResult
  | raised (e : PyError) : SyncEngineResult

/-- What the external engine's async execute entry point does after
being awaited: a completed result or a raised exception. -/
inductive AsyncEngineResult where
  | completed (r : ExecutionResult3) : AsyncEngineResult
  | raised (e : PyError) : AsyncEngineResult

/-- `execute_sync` (runtime.py:260-329).  The whole body sits in one
`try`: `GraphQLError`s (including the validation and
invalid-operation-type subclasses) re-raise, while any other exception
is coerced into a data-less error result.  When the engine returns an
awaitable, the stray awaitable is cancelled (the returned flag) and a
`RuntimeError` with the fatal message is raised — which the same
`except Exception` then converts into an error result.  The returned
pair is (raised-or-returned outcome, whether a stray awaitable was
cancelled). -/
def execute_sync (query : Option String)
    (parseOutcome : Except String (List DocumentDefinition))
    (validationErrors : List String)
    (operation_name : Option String)
    (allowed_operation_types : Option (List OperationType))
    (engine : SyncEngineResult) :
    Except PyError ExecutionResult3 × Bool :=
  match parse_and_validate query parseOutcome validationErrors operation_name
      allowed_operation_types with
  | .error e =>
    if e.isGraphQLError then (.error e, false)
    else (.ok (handle_execution_result ⟨none, [coerce_error e], []⟩), false)
  | .ok _ =>
    match engine with
    | .completed r => (.ok (handle_execution_result r), false)
    | .awaitable =>
      (.ok (handle_execution_result
        ⟨none,
         [coerce_error (.otherError "GraphQL execution failed to complete synchronously.")],
         []⟩), true)
    | .raised e =>
      if e.isGraphQLError then (.error e, false)
      else (.ok (handle_execution_result ⟨none, [coerce_error e], []⟩), false)

/-- `execute` (runtime.py:197-257): as `execute_sync` but awaiting the
engine, so no awaitable guard. -/
def execute_async (query : Option String)
    (parseOutcome : Except String (List DocumentDefinition))
    (validationErrors : List String)
    (operation_name : Option String)
    (allowed_operation_types : Option (List OperationType))
    (engine : AsyncEngineResult) :
    Except PyError ExecutionResult3 :=
  match parse_and_validate query parseOutcome validationErrors operation_name
      allowed_operation_types with
  | .error e =>
    if e.isGraphQLError then .error e
    else .ok (handle_execution_result ⟨none, [coerce_error e], []⟩)
  | .ok _ =>
    match engine with
    | .completed r => .ok (handle_execution_result r)
    | .raised e =>
      if e.isGraphQLError then .error e
      else .ok (handle_execution_result ⟨none, [coerce_error e], []⟩)

/-- One pull on the engine's subscription iterator: the next result, or
a raised exception. -/
abbrev SubscriptionPull := Except PyError ExecutionResult3

/-- The `async for` of `_subscribe_generator` (runtime.py:410-422): each
produced result is yielded; the first raised exception is caught by the
`except` around the loop and yielded as one final data-less error
result, ending the iteration (later pulls are never consumed). -/
def subscribe_iteration : List SubscriptionPull → List ExecutionResult3
  | [] => []
  | .ok r :: rest => handle_execution_result r :: subscribe_iteration rest
  | .error e :: _ =>
    [handle_execution_result ⟨none, [coerce_error e], []⟩]

/-- What `graphql.execution.subscribe` does for this request: raises, or
returns a pre-execution `ExecutionResult`, or returns an async iterator
(modelled by the sequence of pulls it would serve). -/
inductive SubscribeCallOutcome where
  | raised (e : PyError) : SubscribeCallOutcome
  | result (r : ExecutionResult3) : SubscribeCallOutcome
  | iterator (pulls : List SubscriptionPull) : SubscribeCallOutcome

/-- `_subscribe_generator` (runtime.py:368-429), as the list of items the
async generator yields; every exception path inside the generator is
caught (`except Exception`), so the generator always terminates normally
and the list is total.  A raised `graphql_subscribe` becomes a
pre-execution error result whose errors are re-raised as a
`GraphQLValidationError` and caught by the outer `except`, yielding one
coerced item; a pre-execution `ExecutionResult` with errors takes the
same path; an iterator is drained by `subscribe_iteration`. -/
def subscribe_generator (outcome : SubscribeCallOutcome) : List ExecutionResult3 :=
  match outcome with
  | .raised e =>
    [handle_execution_result
      ⟨none, [coerce_error (.validationError [coerce_error e])], []⟩]
  | .result r =>
    if !r.errors.isEmpty then
      [handle_execution_result
        ⟨none, [coerce_error (.validationError r.errors)], []⟩]
    else []
  | .iterator pulls => subscribe_iteration pulls

/-- The wire response built by `process_result` (http/__init__.py:21-34):
each field records whether the corresponding key is present in the
response dict and, for `data`, its (possibly null) value. -/
structure GraphQLHTTPResponse where
  dataEntry : Option (Option JValue)
  errorsEntry : Option (List PyError)
  extensionsEntry : Option (List (String × JValue))

/-- `process_result` (http/__init__.py:21-34): under the strict protocol
a falsy `result.data` omits the `data` key entirely; otherwise `data` is
always set (possibly to null).  `errors` and `extensions` are added only
when truthy. -/
def process_result (result : ExecutionResult3) (strict : Bool) :
    GraphQLHTTPResponse :=
  { dataEntry :=
      if strict ∧ ¬ optTruthy result.data then none else some result.data
    errorsEntry := if !result.errors.isEmpty then some result.errors else none
    extensionsEntry :=
      if !result.extensions.isEmpty then some result.extensions else none }

/-- HTTP methods seen by the views. -/
inductive HTTPMethod where
  | GET | POST | OPTIONS | PUT | DELETE | PATCH | HEAD
deriving Repr, DecidableEq

/-- The method string interpolated into
`InvalidOperationTypeError.as_http_error_reason`. -/
def HTTPMethod.asString : HTTPMethod → String
  | .GET => "GET"
  | .POST => "POST"
  | .OPTIONS => "OPTIONS"
  | .PUT => "PUT"
  | .DELETE => "DELETE"
  | .PATCH => "PATCH"
  | .HEAD => "HEAD"

/-- `operation_type_from_http` (http/types.py:19-34): GET allows queries
and (multipart) subscriptions, POST allows all three; the `ValueError`
branch for other methods is unreachable behind the views' method
check. -/
def operation_type_from_http : HTTPMethod → List OperationType
  | .GET => [.query, .subscription]
  | .POST => [.query, .mutation, .subscription]
  | _ => []

/-- Modelled from the spec: `BaseView.is_request_allowed`
(graphql_server/http/base.py, whose source is not in this tree — only
its callers are).  Spec 4.5 step 1: "only GET/POST/OPTIONS accepted";
OPTIONS short-circuits separately, so the check passes exactly for GET
and POST. -/
def is_request_allowed (method : HTTPMethod) : Bool :=
  method = .GET ∨ method = .POST

/-- The protocol selected while parsing the HTTP body
(http/__init__.py:64-66). -/
inductive Protocol where
  | http | httpStrict | multipartSubscription | subscription
deriving Repr, DecidableEq

/-- A parsed request as seen by the views after `parse_http_body`,
bundled with what the external engine would do for it: the parse of its
query text, the validation errors of the parsed document, and the
execution engine's outcome. -/
structure ParsedRequest where
  query : Option String
  parseOutcome : Except String (List DocumentDefinition)
  variablesJson : Option JValue
  operation_name : Option String
  extensions : Option JValue
  protocol : Protocol
  validationErrors : List String
  engineSync : SyncEngineResult
  engineAsync : AsyncEngineResult
  subscribeOutcome : SubscribeCallOutcome

/-- Outcome of `parse_http_body`: parsed data, or one of the exceptions
the views translate (`json.decoder.JSONDecodeError`, `KeyError`, or an
`HTTPException` raised inside body parsing, e.g. unsupported content
type). -/
inductive BodyParseOutcome where
  | parsed (d : ParsedRequest) : BodyParseOutcome
  | jsonDecodeError : BodyParseOutcome
  | keyError : BodyParseOutcome
  | httpException (status : Nat) (message : String) : BodyParseOutcome

/-- A request reaching `run`, together with the value the
IDE-rendering predicate would take for it (`should_render_graphql_ide`
lives in the absent http/base.py; its decision is request-header driven
and is carried here as a field). -/
structure RequestModel where
  method : HTTPMethod
  body : BodyParseOutcome
  shouldRenderIde : Bool

/-- View configuration relevant to `run`. -/
structure ViewConfig where
  allow_queries_via_get : Bool
  graphql_ide : Bool

/-- Terminal outcome of a view's `run` for a plain HTTP request: a
raised `HTTPException` (status and message), the rendered IDE page, a
JSON response (body and the sub-response status code), or the async
view's streaming multipart response. -/
inductive RunOutcome where
  | httpError (status : Nat) (message : String) : RunOutcome
  | idePage : RunOutcome
  | response (body : GraphQLHTTPResponse) (status : Nat) : RunOutcome
  | streamingResponse : RunOutcome

/-- Python `str(e)` for the exceptions flowing through the views'
`except Exception` handler. -/
def PyError.asString : PyError → String
  | .graphQLError m => m
  | .validationError _ => "Validation failed"
  | .invalidOperationType op allowed =>
    format_operation_type op ++ " are not allowed." ++
      (if !allowed.isEmpty then
        " Only " ++ String.intercalate ", " (allowed.map format_operation_type) ++
          " are allowed."
       else "")
  | .otherError m => m

/-- The operation-type allow-list a view resolves for a request
(sync_base_view.py:225-231 / async_base_view.py:366-372): the
method-derived set, minus QUERY for GET when queries via GET are
disabled. -/
def resolved_allowed_operation_types (cfg : ViewConfig) (method : HTTPMethod) :
    List OperationType :=
  let base := operation_type_from_http method
  if method = .GET ∧ ¬ cfg.allow_queries_via_get then
    base.filter (· ≠ .query)
  else base

/-- The shared tail of both views' `run`: dispatch on the outcome of the
execute call exactly as the `except` chain does
(sync_base_view.py:238-268, async_base_view.py:378-421).
A `GraphQLValidationError` becomes a data-less result carrying its
errors, with the sub-response status forced to 400 under the strict
protocol; an `InvalidOperationTypeError` becomes an `HTTPException`
with status 400 and its http-error reason; any other exception becomes
an `HTTPException` with status 400 and its string form; a returned
result is shaped by `process_result` and the default 200 sub-response
status. -/
def dispatch_execution (method : HTTPMethod) (is_strict : Bool)
    (outcome : Except PyError ExecutionResult3) : RunOutcome :=
  match outcome with
  | .ok r => .response (process_result r is_strict) 200
  | .error e =>
    match e with
    | .validationError errs =>
      .response (process_result ⟨none, errs, []⟩ is_strict)
        (if is_strict then 400 else 200)
    | .invalidOperationType op _ =>
      .httpError 400 (as_http_error_reason op method.asString)
    | e => .httpError 400 e.asString

/-- `SyncBaseHTTPView.run` (sync_base_view.py:185-268), returning the
terminal outcome and whether `execute_operation` was invoked.  Order of
the checks follows the source: OPTIONS preflight, method check, body
parsing, the variables/extensions object checks, the GET-specific
allow-list narrowing and IDE rendering, then execution via
`execute_sync`. -/
def run_sync (cfg : ViewConfig) (req : RequestModel) : RunOutcome × Bool :=
  if req.method = .OPTIONS then (.httpError 200 "", false)
  else if ¬ is_request_allowed req.method then
    (.httpError 405 "GraphQL only supports GET and POST requests.", false)
  else
    match req.body with
    | .jsonDecodeError =>
      (.httpError 400 "Unable to parse request body as JSON", false)
    | .keyError => (.httpError 400 "File(s) missing in form data", false)
    | .httpException s m => (.httpError s m, false)
    | .parsed d =>
      if d.variablesJson.any (fun v => !v.isObj) then
        (.httpError 400 "Variables must be a JSON object", false)
      else if d.extensions.any (fun v => !v.isObj) then
        (.httpError 400 "Extensions must be a JSON object", false)
      else
        let allowed := resolved_allowed_operation_types cfg req.method
        if req.method = .GET ∧ cfg.graphql_ide ∧ req.shouldRenderIde then
          (.idePage, false)
        else
          let is_strict := d.protocol == Protocol.httpStrict
          (dispatch_execution req.method is_strict
            (execute_sync d.query d.parseOutcome d.validationErrors
              d.operation_name (some allowed) d.engineSync).1, true)

/-- `AsyncBaseHTTPView.run` (async_base_view.py:326-421) for a plain
HTTP (non-websocket) request: identical checks; `execute_operation`
calls `subscribe` for the multipart-subscription protocol (an iterator
result becomes a streaming response) and `execute` otherwise. -/
def run_async (cfg : ViewConfig) (req : RequestModel) : RunOutcome × Bool :=
  if req.method = .OPTIONS then (.httpError 200 "", false)
  else if ¬ is_request_allowed req.method then
    (.httpError 405 "GraphQL only supports GET and POST requests.", false)
  else
    match req.body with
    | .jsonDecodeError =>
      (.httpError 400 "Unable to parse request body as JSON", false)
    | .keyError => (.httpError 400 "File(s) missing in form data", false)
    | .httpException s m => (.httpError s m, false)
    | .parsed d =>
      if d.variablesJson.any (fun v => !v.isObj) then
        (.httpError 400 "Variables must be a JSON object", false)
      else if d.extensions.any (fun v => !v.isObj) then
        (.httpError 400 "Extensions must be a JSON object", false)
      else
        let allowed := resolved_allowed_operation_types cfg req.method
        if req.method = .GET ∧ cfg.graphql_ide ∧ req.shouldRenderIde then
          (.idePage, false)
        else
          let is_strict := d.protocol == Protocol.httpStrict
          if d.protocol = .multipartSubscription then
            match parse_and_validate d.query d.parseOutcome d.validationErrors
                d.operation_name (some [.subscription]) with
            | .error e => (dispatch_execution req.method is_strict (.error e), true)
            | .ok _ => (.streamingResponse, true)
          else
            (dispatch_execution req.method is_strict
              (execute_async d.query d.parseOutcome d.validationErrors
                d.operation_name (some allowed) d.engineAsync), true)

/-- Modelled from the spec: the websocket subprotocol name constants
(`graphql_server/websockets/constants.py` and the
`graphql_server.subscriptions` package are not in this tree — only their
importers are).  Spec 4.7/6: the two subprotocols are
`graphql-transport-ws` and (legacy) `graphql-ws`. -/
def GRAPHQL_TRANSPORT_WS_PROTOCOL : String := "graphql-transport-ws"

/-- Modelled from the spec: the legacy websocket subprotocol name. -/
def GRAPHQL_WS_PROTOCOL : String := "graphql-ws"

/-- `GraphQLWSConsumer.__init__`'s default `subscription_protocols`
(channels/consumer.py:58). -/
def default_subscription_protocols : List String :=
  [GRAPHQL_TRANSPORT_WS_PROTOCOL, GRAPHQL_WS_PROTOCOL]

/-- `GraphQLWSConsumer.pick_preferred_protocol`
(channels/consumer.py:73-78).  Python intersects the client's offered
subprotocols with the server's supported set, sorts the intersection by
`accepted_subprotocols.index`, and takes the first element; the minimum
of that order is the earliest offered protocol the server supports,
i.e. the head of the offer list filtered by server support. -/
def pick_preferred_protocol (accepted_subprotocols : List String)
    (protocols : List String) : Option String :=
  (accepted_subprotocols.filter (fun p => protocols.contains p)).head?

/-- Outcome of a websocket connection attempt: which protocol handler
runs, or the close code when none does. -/
inductive ConnectOutcome where
  | transportWsHandler : ConnectOutcome
  | legacyWsHandler : ConnectOutcome
  | closed (code : Nat) : ConnectOutcome
deriving Repr, DecidableEq

/-- `GraphQLWSConsumer.connect` (channels/consumer.py:80-106): dispatch
on the picked protocol; anything other than the two known subprotocols
(including no match) closes the socket with code 4406 and no handler
runs. -/
def consumer_connect (offered : List String) (protocols : List String) :
    ConnectOutcome :=
  match pick_preferred_protocol offered protocols with
  | some p =>
    if p = GRAPHQL_TRANSPORT_WS_PROTOCOL then .transportWsHandler
    else if p = GRAPHQL_WS_PROTOCOL then .legacyWsHandler
    else .closed 4406
  | none => .closed 4406

/-- The websocket branch of `AsyncBaseHTTPView.run`
(async_base_view.py:301-323): dispatch on the framework-picked
subprotocol; anything else closes with 4406 ("Subprotocol not
acceptable"). -/
def async_websocket_dispatch (subprotocol : Option String) : ConnectOutcome :=
  if subprotocol = some GRAPHQL_TRANSPORT_WS_PROTOCOL then .transportWsHandler
  else if subprotocol = some GRAPHQL_WS_PROTOCOL then .legacyWsHandler
  else .closed 4406

/-! Helper lemmas. -/

theorem le_foldl_max (xs : List Nat) (a : Nat) :
    a ≤ xs.foldl Nat.max a ∧ ∀ x ∈ xs, x ≤ xs.foldl Nat.max a := by
  induction xs generalizing a with
  | nil => exact ⟨Nat.le_refl a, by intro x hx; cases hx⟩
  | cons y ys ih =>
    refine ⟨Nat.le_trans (le_max_left a y) (ih (Nat.max a y)).1, ?_⟩
    intro x hx
    rcases List.mem_cons.mp hx with h | h
    · subst h
      exact Nat.le_trans (le_max_right a x) (ih (Nat.max a x)).1
    · exact (ih (Nat.max a y)).2 x h

theorem foldl_max_mem (xs : List Nat) (a : Nat) :
    xs.foldl Nat.max a = a ∨ xs.foldl Nat.max a ∈ xs := by
  induction xs generalizing a with
  | nil => exact Or.inl rfl
  | cons y ys ih =>
    have hstep : (y :: ys).foldl Nat.max a = ys.foldl Nat.max (Nat.max a y) := rfl
    rcases ih (Nat.max a y) with h | h
    · rcases Nat.le_total a y with hle | hle
      · refine Or.inr (List.mem_cons.mpr (Or.inl ?_))
        rw [hstep, h]; exact Nat.max_eq_right hle
      · refine Or.inl ?_
        rw [hstep, h]; exact Nat.max_eq_left hle
    · refine Or.inr (List.mem_cons_of_mem y ?_)
      rw [hstep]; exact h

theorem pyListMax_is_ub (x : Nat) (xs : List Nat) :
    ∀ s ∈ x :: xs, s ≤ pyListMax (x :: xs) := by
  intro s hs
  rcases List.mem_cons.mp hs with h | h
  · subst h; exact (le_foldl_max xs s).1
  · exact (le_foldl_max xs x).2 s h

theorem pyListMax_mem (x : Nat) (xs : List Nat) :
    pyListMax (x :: xs) ∈ x :: xs := by
  have h := foldl_max_mem xs x
  show xs.foldl Nat.max x ∈ x :: xs
  rcases h with h | h
  · rw [h]; exact List.mem_cons_self _ _
  · exact List.mem_cons_of_mem x h

theorem opTypes_cons_operation (ty : OperationType) (nm : Option String)
    (rest : List DocumentDefinition) :
    opTypes (.operation ty nm :: rest) = ty :: opTypes rest := rfl

theorem opTypes_cons_fragment (rest : List DocumentDefinition) :
    opTypes (.fragmentDef :: rest) = opTypes rest := rfl

theorem loop_no_name_acc_some (defs : List DocumentDefinition) (a : OperationType) :
    get_operation_type_loop none defs (some a) =
      if (opTypes defs).isEmpty then .ok a else .error multipleOperationsError := by
  induction defs with
  | nil => rfl
  | cons d rest ih =>
    cases d with
    | operation ty nm => rfl
    | fragmentDef =>
      have hstep : get_operation_type_loop none (.fragmentDef :: rest) (some a) =
          get_operation_type_loop none rest (some a) := rfl
      rw [hstep, opTypes_cons_fragment]
      exact ih

theorem loop_no_name_acc_none (defs : List DocumentDefinition) :
    get_operation_type_loop none defs none =
      match opTypes defs with
      | [] => .error (.graphQLError "Can\x27t get GraphQL operation type")
      | [ty] => .ok ty
      | _ :: _ :: _ => .error multipleOperationsError := by
  induction defs with
  | nil => rfl
  | cons d rest ih =>
    cases d with
    | operation ty nm =>
      have hstep : get_operation_type_loop none (.operation ty nm :: rest) none =
          get_operation_type_loop none rest (some ty) := rfl
      rw [hstep, loop_no_name_acc_some rest ty, opTypes_cons_operation]
      cases hrest : opTypes rest with
      | nil => rfl
      | cons t ts => rfl
    | fragmentDef =>
      have hstep : get_operation_type_loop none (.fragmentDef :: rest) none =
          get_operation_type_loop none rest none := rfl
      rw [hstep, opTypes_cons_fragment]
      exact ih

theorem loop_with_name (n : String) (defs : List DocumentDefinition)
    (acc : Option OperationType) :
    get_operation_type_loop (some n) defs acc =
      match defs.foldl (named_match_step n) acc with
      | some ty => .ok ty
      | none => .error (unknownOperationError n) := by
  induction defs generalizing acc with
  | nil => cases acc <;> rfl
  | cons d rest ih =>
    cases d with
    | operation ty nm =>
      cases nm with
      | none =>
        have hstep : get_operation_type_loop (some n) (.operation ty none :: rest) acc =
            get_operation_type_loop (some n) rest acc := by
          simp [get_operation_type_loop]
        rw [hstep, ih acc]
        rfl
      | some m =>
        by_cases hm : m = n
        · have hstep : get_operation_type_loop (some n)
              (.operation ty (some m) :: rest) acc =
              get_operation_type_loop (some n) rest (some ty) := by
            simp [get_operation_type_loop, hm]
          rw [hstep, ih (some ty)]
          simp [List.foldl_cons, named_match_step, hm]
        · have hstep : get_operation_type_loop (some n)
              (.operation ty (some m) :: rest) acc =
              get_operation_type_loop (some n) rest acc := by
            simp [get_operation_type_loop, hm]
          rw [hstep, ih acc]
          simp [List.foldl_cons, named_match_step, hm]
    | fragmentDef =>
      have hstep : get_operation_type_loop (some n) (.fragmentDef :: rest) acc =
          get_operation_type_loop (some n) rest acc := rfl
      rw [hstep, ih acc]
      rfl

theorem named_match_fixed_of_no_match (n : String) (defs : List DocumentDefinition)
    (acc : Option OperationType)
    (h : ∀ ty : OperationType, DocumentDefinition.operation ty (some n) ∉ defs) :
    defs.foldl (named_match_step n) acc = acc := by
  induction defs generalizing acc with
  | nil => rfl
  | cons d rest ih =>
    have hrest : ∀ ty : OperationType,
        DocumentDefinition.operation ty (some n) ∉ rest := by
      intro ty hmem
      exact h ty (List.mem_cons_of_mem d hmem)
    have hd : named_match_step n acc d = acc := by
      cases d with
      | operation ty nm =>
        cases nm with
        | none => rfl
        | some m =>
          by_cases hm : m = n
          · exact absurd (by rw [hm]; exact List.mem_cons_self _ _) (h ty)
          · simp [named_match_step, hm]
      | fragmentDef => rfl
    calc (d :: rest).foldl (named_match_step n) acc
        = rest.foldl (named_match_step n) (named_match_step n acc d) := rfl
      _ = rest.foldl (named_match_step n) acc := by rw [hd]
      _ = acc := ih acc hrest

/-! Claim theorems. -/

/-- Claim C5: for every parsed document, `_get_operation_type` raises
"Must provide operation name if query contains multiple operations."
when no operation name is given and the document holds more than one
operation definition; raises the unknown-operation error naming the
operation when a name is given but no operation definition carries it;
and otherwise returns the matched operation's type (the single unnamed
operation, or the operation selected by name). -/
theorem get_operation_type_resolution (document : List DocumentDefinition)
    (n : String) :
    ((opTypes document).length ≥ 2 →
      get_operation_type document none = .error multipleOperationsError) ∧
    ((∀ ty : OperationType, DocumentDefinition.operation ty (some n) ∉ document) →
      get_operation_type document (some n) = .error (unknownOperationError n)) ∧
    (∀ ty : OperationType, opTypes document = [ty] →
      get_operation_type document none = .ok ty) ∧
    (∀ ty : OperationType, named_operation_match n document = some ty →
      get_operation_type document (some n) = .ok ty) := by
  refine ⟨?_, ?_, ?_, ?_⟩
  · intro hlen
    show get_operation_type_loop none document none = _
    rw [loop_no_name_acc_none]
    cases hops : opTypes document with
    | nil => rw [hops] at hlen; simp at hlen
    | cons t ts =>
      cases ts with
      | nil => rw [hops] at hlen; simp at hlen
      | cons t2 ts2 => rfl
  · intro hnone
    show get_operation_type_loop (some n) document none = _
    rw [loop_with_name, named_match_fixed_of_no_match n document none hnone]
  · intro ty hops
    show get_operation_type_loop none document none = _
    rw [loop_no_name_acc_none, hops]
  · intro ty hmatch
    show get_operation_type_loop (some n) document none = _
    rw [loop_with_name]
    have : document.foldl (named_match_step n) none = some ty := hmatch
    rw [this]

/-- Witness for C5 at concrete documents: a two-operation document
without a name raises the multiple-operations error, and a
single-operation document with a mismatched name raises the unknown-name
error. -/
theorem get_operation_type_resolution_witness :
    get_operation_type
      [.operation .mutation (some "M"), .operation .query (some "Q")] none =
      .error multipleOperationsError ∧
    get_operation_type [.operation .query (some "Q")] (some "Z") =
      .error (unknownOperationError "Z") := by
  constructor
  · exact (get_operation_type_resolution
      [.operation .mutation (some "M"), .operation .query (some "Q")] "Z").1
      (by decide)
  · exact (get_operation_type_resolution
      [.operation .query (some "Q")] "Z").2.1
      (by intro ty; cases ty <;> decide)

/-- Claim C2 counterexample: `format_execution_result` ignores error
paths.  This concrete result carries one error without a path but is
not marked invalid, and it encodes to status 200, not the claimed
400. -/
theorem format_execution_result_pathless_counterexample :
    Legacy.has_pathless_error ⟨none, some [⟨"boom", none⟩], false⟩ = true ∧
    (Legacy.format_execution_result
      (some ⟨none, some [⟨"boom", none⟩], false⟩)).2 = 200 ∧
    (200 : Nat) ≠ 400 := by
  refine ⟨rfl, rfl, by decide⟩

/-- Claim C2 as amended: the per-result status code of the legacy
encoder is 400 exactly when a result is present and its `invalid` flag
is set (parse/validation-level failure); error paths are never
consulted, and a missing (caught) result encodes to 200. -/
theorem format_execution_result_status_from_invalid_flag
    (r : Option Legacy.ExecutionResult) :
    ((Legacy.format_execution_result r).2 = 400 ↔
      ∃ res : Legacy.ExecutionResult, r = some res ∧ res.invalid = true) ∧
    ((Legacy.format_execution_result r).2 = 200 ↔
      ¬ ∃ res : Legacy.ExecutionResult, r = some res ∧ res.invalid = true) := by
  cases r with
  | none => simp [Legacy.format_execution_result]
  | some res =>
    cases hinv : res.invalid with
    | true => simp [Legacy.format_execution_result, hinv]
    | false => simp [Legacy.format_execution_result, hinv]

/-- Claim C3: encoding a non-empty batch yields the list of the
per-result bodies in the original request order, and the aggregate
status code is the maximum of the per-result status codes (it bounds
every one of them and is attained by one of them). -/
theorem encode_execution_results_batch (r : Option Legacy.ExecutionResult)
    (rest : List (Option Legacy.ExecutionResult)) :
    Legacy.encode_execution_results (r :: rest) true =
      some (.batch (((r :: rest).map Legacy.format_execution_result).map (·.1)),
        pyListMax (((r :: rest).map Legacy.format_execution_result).map (·.2))) ∧
    (∀ s ∈ ((r :: rest).map Legacy.format_execution_result).map (·.2),
      s ≤ pyListMax (((r :: rest).map Legacy.format_execution_result).map (·.2))) ∧
    pyListMax (((r :: rest).map Legacy.format_execution_result).map (·.2)) ∈
      ((r :: rest).map Legacy.format_execution_result).map (·.2) := by
  refine ⟨rfl, ?_, ?_⟩
  · exact pyListMax_is_ub _ _
  · exact pyListMax_mem _ _

/-- Witness for C3: a batch of one valid and one invalid result encodes
to the two bodies in order with aggregate status 400, and 400 is indeed
one of the per-result statuses. -/
theorem encode_execution_results_batch_witness :
    Legacy.encode_execution_results
      [some ⟨some (.obj [("result", .num 1)]), none, false⟩,
       some ⟨none, some [⟨"parse failure", none⟩], true⟩] true =
      some (.batch
        [some (Legacy.to_dict ⟨some (.obj [("result", .num 1)]), none, false⟩),
         some (Legacy.to_dict ⟨none, some [⟨"parse failure", none⟩], true⟩)],
        400) ∧
    (400 : Nat) ∈
      (([some ⟨some (.obj [("result", .num 1)]), none, false⟩,
         some (⟨none, some [⟨"parse failure", none⟩], true⟩ :
           Legacy.ExecutionResult)]).map
        Legacy.format_execution_result).map (·.2) := by
  have h := encode_execution_results_batch
    (some ⟨some (.obj [("result", .num 1)]), none, false⟩)
    [some ⟨none, some [⟨"parse failure", none⟩], true⟩]
  refine ⟨h.1.trans (by rfl), ?_⟩
  have hmem := h.2.2
  have hval : pyListMax
      ((([some (⟨some (.obj [("result", .num 1)]), none, false⟩ :
          Legacy.ExecutionResult),
         some ⟨none, some [⟨"parse failure", none⟩], true⟩]).map
        Legacy.format_execution_result).map (·.2)) = 400 := rfl
  rw [hval] at hmem
  exact hmem

/-- Claim C10: with `is_batch = False` on a list of one or more results,
the encoded body is only the first result's body (the later results are
absent from it), while the status code is still the maximum over the
per-result status codes of the whole list. -/
theorem encode_execution_results_single_takes_max
    (r : Option Legacy.ExecutionResult)
    (rest : List (Option Legacy.ExecutionResult)) :
    Legacy.encode_execution_results (r :: rest) false =
      some (.single (Legacy.format_execution_result r).1,
        pyListMax (((r :: rest).map Legacy.format_execution_result).map (·.2))) ∧
    (∀ s ∈ ((r :: rest).map Legacy.format_execution_result).map (·.2),
      s ≤ pyListMax (((r :: rest).map Legacy.format_execution_result).map (·.2))) ∧
    pyListMax (((r :: rest).map Legacy.format_execution_result).map (·.2)) ∈
      ((r :: rest).map Legacy.format_execution_result).map (·.2) := by
  refine ⟨rfl, ?_, ?_⟩
  · exact pyListMax_is_ub _ _
  · exact pyListMax_mem _ _

/-- Witness for C10: a valid first result followed by an invalid second
one encodes (non-batch) to a body showing only the first result while
the status is raised to 400 by the second. -/
theorem encode_execution_results_single_takes_max_witness :
    Legacy.encode_execution_results
      [some ⟨some (.obj [("result", .num 1)]), none, false⟩,
       some ⟨none, some [⟨"parse failure", none⟩], true⟩] false =
      some (.single
        (some (Legacy.to_dict ⟨some (.obj [("result", .num 1)]), none, false⟩)),
        400) := by
  have h := encode_execution_results_single_takes_max
    (some ⟨some (.obj [("result", .num 1)]), none, false⟩)
    [some ⟨none, some [⟨"parse failure", none⟩], true⟩]
  exact h.1.trans (by rfl)

/-- Claim C4: under the strict protocol, a result with no data encodes
without any `data` key; under the classic protocol the `data` key is
always present (carrying the result's possibly-null data), regardless of
errors. -/
theorem process_result_data_key (r : ExecutionResult3) :
    (r.data = none → (process_result r true).dataEntry = none) ∧
    (process_result r false).dataEntry = some r.data := by
  constructor
  · intro h
    simp [process_result, h, optTruthy]
  · simp [process_result]

/-- Witness for C4 at a concrete errored result: strict mode omits
`data`, classic mode carries `data = null`. -/
theorem process_result_data_key_witness :
    (process_result ⟨none, [.graphQLError "boom"], []⟩ true).dataEntry = none ∧
    (process_result ⟨none, [.graphQLError "boom"], []⟩ false).dataEntry =
      some none := by
  constructor
  · exact (process_result_data_key ⟨none, [.graphQLError "boom"], []⟩).1 rfl
  · exact (process_result_data_key ⟨none, [.graphQLError "boom"], []⟩).2

/-- Claim C7: when the engine's subscription iterator raises after
serving some items, the subscribe generator yields those items followed
by exactly one final `ExecutionResult` with `data = None` and a single
error coerced from the raised exception, and then terminates normally —
the exception never propagates (every later pull is discarded, and the
generator's output is this total list). -/
theorem subscribe_generator_iteration_failure (items : List ExecutionResult3)
    (e : PyError) (laterPulls : List SubscriptionPull) :
    subscribe_generator (.iterator (items.map Except.ok ++ .error e :: laterPulls)) =
      items ++ [⟨none, [coerce_error e], []⟩] := by
  show subscribe_iteration (items.map Except.ok ++ .error e :: laterPulls) =
    items ++ [⟨none, [coerce_error e], []⟩]
  induction items with
  | nil => rfl
  | cons r rest ih =>
    have hstep : subscribe_iteration
        ((r :: rest).map Except.ok ++ .error e :: laterPulls) =
        handle_execution_result r ::
          subscribe_iteration (rest.map Except.ok ++ .error e :: laterPulls) := rfl
    rw [hstep, ih]
    rfl

/-- Claim C8: when parsing and validation succeed but the engine's
synchronous execute entry point returns an awaitable, `execute_sync`
cancels the stray awaitable (the flag) and returns — instead of the
awaitable — an `ExecutionResult` carrying the single fatal error
"GraphQL execution failed to complete synchronously." (the raised
`RuntimeError`, coerced by the surrounding `except Exception`
handler). -/
theorem execute_sync_awaitable_guard (query : Option String)
    (parseOutcome : Except String (List DocumentDefinition))
    (validationErrors : List String) (operation_name : Option String)
    (allowed_operation_types : Option (List OperationType))
    (document : List DocumentDefinition)
    (hpv : parse_and_validate query parseOutcome validationErrors
      operation_name allowed_operation_types = .ok document) :
    execute_sync query parseOutcome validationErrors operation_name
      allowed_operation_types .awaitable =
      (.ok ⟨none,
        [.graphQLError "GraphQL execution failed to complete synchronously."],
        []⟩, true) := by
  unfold execute_sync
  rw [hpv]
  rfl

/-- Witness for C8 at a concrete single-query request whose engine
returns an awaitable. -/
theorem execute_sync_awaitable_guard_witness :
    execute_sync (some "{ hello }")
      (.ok [.operation .query none]) [] none none .awaitable =
      (.ok ⟨none,
        [.graphQLError "GraphQL execution failed to complete synchronously."],
        []⟩, true) :=
  execute_sync_awaitable_guard (some "{ hello }")
    (.ok [.operation .query none]) [] none none [.operation .query none] rfl

/-- Claim C6: when the parsed `variables` or `extensions` field is
present but is not a JSON object, both the sync and the async view
return the 400 client error stating the field must be a JSON object,
and `execute_operation` is never invoked (the returned flag is
`false`). -/
theorem variables_extensions_object_check (cfg : ViewConfig)
    (m : HTTPMethod) (ide : Bool) (d : ParsedRequest) (v : JValue)
    (hm : m = .GET ∨ m = .POST) :
    (d.variablesJson = some v → v.isObj = false →
      run_sync cfg ⟨m, .parsed d, ide⟩ =
        (.httpError 400 "Variables must be a JSON object", false) ∧
      run_async cfg ⟨m, .parsed d, ide⟩ =
        (.httpError 400 "Variables must be a JSON object", false)) ∧
    (d.variablesJson.any (fun w => !w.isObj) = false →
      d.extensions = some v → v.isObj = false →
      run_sync cfg ⟨m, .parsed d, ide⟩ =
        (.httpError 400 "Extensions must be a JSON object", false) ∧
      run_async cfg ⟨m, .parsed d, ide⟩ =
        (.httpError 400 "Extensions must be a JSON object", false)) := by
  constructor
  · intro hv hvo
    have hany : d.variablesJson.any (fun w => !w.isObj) = true := by
      rw [hv]; simp [hvo]
    rcases hm with rfl | rfl <;>
      exact ⟨by simp [run_sync, is_request_allowed, hany],
             by simp [run_async, is_request_allowed, hany]⟩
  · intro hvp he hvo
    have hany : d.extensions.any (fun w => !w.isObj) = true := by
      rw [he]; simp [hvo]
    rcases hm with rfl | rfl <;>
      exact ⟨by simp [run_sync, is_request_allowed, hvp, hany],
             by simp [run_async, is_request_allowed, hvp, hany]⟩

/-- Witness for C6 at a concrete GET request whose `variables` is a JSON
array. -/
theorem variables_extensions_object_check_witness :
    run_sync ⟨true, true⟩
      ⟨.GET, .parsed ⟨some "{ test }", .ok [.operation .query none],
        some (.arr [.num 1]), none, none, .http, [],
        .completed ⟨some (.obj []), [], []⟩,
        .completed ⟨some (.obj []), [], []⟩, .iterator []⟩, false⟩ =
      (.httpError 400 "Variables must be a JSON object", false) :=
  ((variables_extensions_object_check ⟨true, true⟩ .GET false
      ⟨some "{ test }", .ok [.operation .query none], some (.arr [.num 1]),
        none, none, .http, [],
        .completed ⟨some (.obj []), [], []⟩,
        .completed ⟨some (.obj []), [], []⟩, .iterator []⟩
      (.arr [.num 1]) (Or.inl rfl)).1 rfl rfl).1

/-- Claim C1 counterexample: in the newer HTTP views, submitting a
mutation via GET does not yield HTTP 405 with `Allow: POST`; the
`InvalidOperationTypeError` is mapped to a 400 `HTTPException` whose
reason names the disallowed operation kind. -/
theorem mutation_via_get_counterexample :
    (run_sync ⟨true, true⟩
      ⟨.GET, .parsed ⟨some "mutation M { writeTest { test } }",
        .ok [.operation .mutation (some "M")], none, none, none, .http, [],
        .completed ⟨some (.obj []), [], []⟩,
        .completed ⟨some (.obj []), [], []⟩, .iterator []⟩, false⟩).1 =
      .httpError 400 "mutations are not allowed when using GET" ∧
    (400 : Nat) ≠ 405 := ⟨rfl, by decide⟩

/-- Claim C1 as amended.  Legacy stack (`run_http_query` /
`execute_graphql_request`): a mutation submitted via GET
(`allow_only_query = True`) raises HTTP 405 "Can only perform a mutation
operation from a POST request." with an `Allow: POST` header, and via
POST the document is executed normally.  Newer stack
(`SyncBaseHTTPView.run`): a mutation via GET raises a 400
`HTTPException` whose reason names the disallowed kind ("mutations are
not allowed when using GET"), and via POST the document is executed
normally. -/
theorem mutation_via_get_gating_amended :
    (∀ (q : String) (doc : Legacy.BackendDocument),
      q ≠ "" → doc.operationTypeFor = some "mutation" →
      Legacy.execute_graphql_request (some q) (.ok doc) true =
        .httpQueryError 405
          "Can only perform a mutation operation from a POST request."
          (some "POST")) ∧
    (∀ (q : String) (doc : Legacy.BackendDocument) (r : Legacy.ExecutionResult),
      q ≠ "" → doc.executeOutcome = .ok r →
      Legacy.execute_graphql_request (some q) (.ok doc) false = .result r) ∧
    (∀ (cfg : ViewConfig) (ide : Bool) (d : ParsedRequest)
      (document : List DocumentDefinition),
      d.variablesJson.any (fun w => !w.isObj) = false →
      d.extensions.any (fun w => !w.isObj) = false →
      (cfg.graphql_ide = false ∨ ide = false) →
      strTruthy d.query = true →
      d.parseOutcome = .ok document →
      get_operation_type document d.operation_name = .ok .mutation →
      run_sync cfg ⟨.GET, .parsed d, ide⟩ =
        (.httpError 400 "mutations are not allowed when using GET", true)) ∧
    (∀ (cfg : ViewConfig) (ide : Bool) (d : ParsedRequest)
      (document : List DocumentDefinition) (r : ExecutionResult3),
      d.variablesJson.any (fun w => !w.isObj) = false →
      d.extensions.any (fun w => !w.isObj) = false →
      strTruthy d.query = true →
      d.parseOutcome = .ok document →
      get_operation_type document d.operation_name = .ok .mutation →
      d.validationErrors = [] →
      d.engineSync = .completed r →
      run_sync cfg ⟨.POST, .parsed d, ide⟩ =
        (.response (process_result r (d.protocol == Protocol.httpStrict)) 200,
          true)) := by
  refine ⟨?_, ?_, ?_, ?_⟩
  · intro q doc hq hty
    simp [Legacy.execute_graphql_request, strTruthy, hq, hty]
  · intro q doc r hq hexec
    simp [Legacy.execute_graphql_request, strTruthy, hq,
      Legacy.execute_document, hexec]
  · intro cfg ide d document hvars hexts hide hq hparse hopty
    have hallowed :
        OperationType.mutation ∉ resolved_allowed_operation_types cfg .GET := by
      cases haqg : cfg.allow_queries_via_get <;>
        simp [resolved_allowed_operation_types, operation_type_from_http, haqg]
    rcases hide with hide | hide <;>
      simp [run_sync, is_request_allowed, hvars, hexts, hide, execute_sync,
        parse_and_validate, hq, hparse, hopty, hallowed, dispatch_execution,
        PyError.isGraphQLError, as_http_error_reason, format_operation_type,
        HTTPMethod.asString]
  · intro cfg ide d document r hvars hexts hq hparse hopty hval hengine
    have hallowed :
        OperationType.mutation ∈ resolved_allowed_operation_types cfg .POST := by
      simp [resolved_allowed_operation_types, operation_type_from_http]
    simp [run_sync, is_request_allowed, hvars, hexts, execute_sync,
      parse_and_validate, hq, hparse, hopty, hallowed, hval, hengine,
      dispatch_execution, handle_execution_result]

/-- Witness for C1 as amended: the legacy stack at a concrete mutation
document via GET and the newer view at a concrete mutation request via
POST. -/
theorem mutation_via_get_gating_amended_witness :
    Legacy.execute_graphql_request (some "mutation M { writeTest { test } }")
      (.ok ⟨some "mutation", .ok ⟨some (.obj []), none, false⟩⟩) true =
      .httpQueryError 405
        "Can only perform a mutation operation from a POST request."
        (some "POST") ∧
    run_sync ⟨true, true⟩
      ⟨.POST, .parsed ⟨some "mutation M { writeTest { test } }",
        .ok [.operation .mutation (some "M")], none, none, none, .http, [],
        .completed ⟨some (.obj [("writeTest", .null)]), [], []⟩,
        .completed ⟨some (.obj [("writeTest", .null)]), [], []⟩,
        .iterator []⟩, false⟩ =
      (.response
        (process_result ⟨some (.obj [("writeTest", .null)]), [], []⟩ false)
        200, true) := by
  constructor
  · exact mutation_via_get_gating_amended.1 "mutation M { writeTest { test } }"
      ⟨some "mutation", .ok ⟨some (.obj []), none, false⟩⟩ (by decide) rfl
  · exact mutation_via_get_gating_amended.2.2.2 ⟨true, true⟩ false
      ⟨some "mutation M { writeTest { test } }",
        .ok [.operation .mutation (some "M")], none, none, none, .http, [],
        .completed ⟨some (.obj [("writeTest", .null)]), [], []⟩,
        .completed ⟨some (.obj [("writeTest", .null)]), [], []⟩,
        .iterator []⟩
      [.operation .mutation (some "M")]
      ⟨some (.obj [("writeTest", .null)]), [], []⟩
      rfl rfl rfl rfl rfl rfl rfl

/-- Claim C9 counterexample: the negotiated subprotocol does not prefer
`graphql-transport-ws` over legacy `graphql-ws`.  A client offering the
legacy protocol first — while also offering `graphql-transport-ws`,
which the server supports — gets the legacy handler. -/
theorem subprotocol_negotiation_counterexample :
    consumer_connect [GRAPHQL_WS_PROTOCOL, GRAPHQL_TRANSPORT_WS_PROTOCOL]
      default_subscription_protocols = .legacyWsHandler ∧
    GRAPHQL_TRANSPORT_WS_PROTOCOL ∈
      ([GRAPHQL_WS_PROTOCOL, GRAPHQL_TRANSPORT_WS_PROTOCOL] : List String) ∧
    GRAPHQL_TRANSPORT_WS_PROTOCOL ∈ default_subscription_protocols ∧
    ConnectOutcome.legacyWsHandler ≠ ConnectOutcome.transportWsHandler := by
  refine ⟨rfl, ?_, ?_, by decide⟩
  · exact List.mem_cons_of_mem _ (List.mem_cons_self _ _)
  · exact List.mem_cons_self _ _

/-- Claim C9 as amended: the negotiated subprotocol is the client's
earliest offered subprotocol that the server supports (the head of the
intersection ordered by the client's offer, equivalently `find?` over
the offer list); when no offered subprotocol is supported the pick is
`none`, the consumer closes the socket with code 4406 and no handler
runs; and the async view's websocket dispatch closes with 4406 for
anything other than the two known subprotocols. -/
theorem subprotocol_negotiation_amended (offered protocols : List String)
    (sub : Option String) :
    (pick_preferred_protocol offered protocols =
      offered.find? (fun p => protocols.contains p)) ∧
    (pick_preferred_protocol offered protocols = none ↔
      ∀ p ∈ offered, p ∉ protocols) ∧
    (pick_preferred_protocol offered protocols = none →
      consumer_connect offered protocols = .closed 4406) ∧
    (sub ≠ some GRAPHQL_TRANSPORT_WS_PROTOCOL →
      sub ≠ some GRAPHQL_WS_PROTOCOL →
      async_websocket_dispatch sub = .closed 4406) := by
  have hfind : pick_preferred_protocol offered protocols =
      offered.find? (fun p => protocols.contains p) := by
    induction offered with
    | nil => rfl
    | cons a rest ih =>
      by_cases hmem : a ∈ protocols
      · simp [pick_preferred_protocol, List.filter_cons, List.find?_cons, hmem]
      · simp only [pick_preferred_protocol, List.filter_cons, List.find?_cons] at ih ⊢
        simp [hmem, ih]
  refine ⟨hfind, ?_, ?_, ?_⟩
  · rw [hfind, List.find?_eq_none]
    constructor
    · intro h p hp hmem
      exact h p hp (by simpa using hmem)
    · intro h p hp hc
      exact h p hp (by simpa using hc)
  · intro h
    simp [consumer_connect, h]
  · intro h1 h2
    simp [async_websocket_dispatch, h1, h2]

/-- Witness for C9 as amended: an unsupported offer is closed with 4406
by both the channels consumer and the async view dispatch. -/
theorem subprotocol_negotiation_amended_witness :
    async_websocket_dispatch (some "bogus") = .closed 4406 ∧
    consumer_connect ["bogus"] default_subscription_protocols =
      .closed 4406 := by
  constructor
  · exact (subprotocol_negotiation_amended [] [] (some "bogus")).2.2.2
      (by decide) (by decide)
  · exact (subprotocol_negotiation_amended ["bogus"]
      default_subscription_protocols none).2.2.1 (by rfl)
